import Mathlib

/-!
Verification development for the SwiftCloudApi client
(`swift_cloud_py/api.py`): a shallow embedding in Lean 4 of the
request/response contract and error-mapping layer, together with proofs of
the specified properties.

Modelling conventions:
* Python exceptions become values of an explicit error type; a raising
  function returns `Except ApiError α`.
* An HTTP `Response` carries its status code and the result of
  `response.json()`: `some j` when the body parses as JSON, `none` when
  `response.json()` would raise a JSON-decoding error.
* `requests.post` is modelled by an `HttpResult` argument describing what the
  transport does (a response, or `requests.exceptions.ConnectionError`); the
  operations additionally report the request they handed to `requests.post`
  (`none` when control never reached the post call).
* Python floats are modelled as rationals (`ℚ`); every numeric literal in the
  code (0.0, 180) is exactly representable.
* Domain entities (`Intersection`, `ArrivalRates`, `FixedTimeSchedule`,
  `PhaseDiagram`) are treated, as the code does, as black boxes exposing
  `to_json` / `from_json`; each carries its JSON form as a field.
-/

namespace SwiftCloud

/-- JSON values as produced by the Python `json` parsing of a response body
(`response.json()`). Objects keep their key/value fields in insertion order;
a dict produced by `json.loads` has pairwise-distinct keys. Integer-valued
JSON numbers are modelled together with non-integral ones as rationals. -/
inductive Json where
  | null : Json
  | bool (b : Bool) : Json
  | num (q : ℚ) : Json
  | str (s : String) : Json
  | arr (elems : List Json) : Json
  | obj (fields : List (String × Json)) : Json

/-- Python dict indexing `d[k]` on a parsed JSON value: `some v` when the
value is an object containing key `k`, `none` when indexing would raise
(`KeyError` on a missing key, `TypeError` on a non-dict). -/
def Json.getKey : Json → String → Option Json
  | .obj fields, k => fields.lookup k
  | _, _ => none

/-- Digit character of `n % 10`. -/
def digitChar (n : ℕ) : Char := Char.ofNat (48 + n % 10)

/-- Decimal digits of a natural number (used to render Python `repr` of
numbers). -/
def natDigits (n : ℕ) : List Char :=
  (Nat.toDigits 10 n)

/-- Python `repr` of an `int`. -/
def intRepr (n : ℤ) : String :=
  (if n < 0 then "-" else "") ++ String.mk (natDigits n.natAbs)

/-- Python `repr` of a parsed JSON number. A JSON numeric literal always
denotes a decimal `m · 10^(-k)`; when the value is an integer the Python parser
yields an `int` (repr `"123"`), otherwise a `float` whose repr prints the
finite decimal expansion (e.g. `"12.5"`). `floatFracDigits` finds the number
of fractional digits (bounded search; every value reachable from a parsed
JSON body terminates well inside the bound). -/
def floatFracDigits (q : ℚ) : Option ℕ :=
  (List.range 400).find? (fun d => (q * (10 : ℚ) ^ (d + 1)).den = 1)

/-- Zero-pad a digit list on the left to length `w`. -/
def padLeft (w : ℕ) (ds : List Char) : List Char :=
  List.replicate (w - ds.length) '0' ++ ds

/-- Python `repr`/`str` of a parsed JSON number (`int` when integral,
`float` rendered as its finite decimal expansion otherwise). -/
def numRepr (q : ℚ) : String :=
  if q.den = 1 then intRepr q.num
  else
    match floatFracDigits q with
    | some d =>
        let digits := d + 1
        let m : ℕ := (q * (10 : ℚ) ^ digits).num.natAbs
        let ip : ℕ := m / 10 ^ digits
        let fp : ℕ := m % 10 ^ digits
        (if q < 0 then "-" else "")
          ++ String.mk (natDigits ip) ++ "." ++ String.mk (padLeft digits (natDigits fp))
    | none => intRepr q.num ++ "/" ++ String.mk (natDigits q.den)

/-- The apostrophe and double-quote characters (Python quotes string reprs
with these). -/
def squote : Char := Char.ofNat 39

def dquote : Char := Char.ofNat 34

/-- Escape one character the way Python `repr` does inside a string literal
quoted by `q` (backslashes and the quote character; other printable
characters pass through — the model covers printable ASCII payloads). -/
def pyEscapeChar (q c : Char) : List Char :=
  if c = '\\' then ['\\', '\\']
  else if c = q then ['\\', c]
  else [c]

/-- Python `repr` of a `str`: quoted with an apostrophe, unless the string
contains an apostrophe and no double quote, in which case double quotes are
used. -/
def strRepr (s : String) : String :=
  let q := if s.contains squote ∧ ¬ s.contains dquote then dquote else squote
  String.mk (q :: (s.data.flatMap (pyEscapeChar q)) ++ [q])

mutual

/-- Python `repr` of a parsed JSON value (what `str` prints for containers:
`None`, `True`, `False`, numbers, quoted strings, `[...]` lists and
`\x7b...\x7d` dicts with `repr`ed elements). -/
def pyRepr : Json → String
  | .null => "None"
  | .bool true => "True"
  | .bool false => "False"
  | .num q => numRepr q
  | .str s => strRepr s
  | .arr xs => "[" ++ pyReprArr xs ++ "]"
  | .obj kvs => "\x7b" ++ pyReprObj kvs ++ "\x7d"

/-- Comma-separated `repr`s of list elements. -/
def pyReprArr : List Json → String
  | [] => ""
  | [x] => pyRepr x
  | x :: y :: xs => pyRepr x ++ ", " ++ pyReprArr (y :: xs)

/-- Comma-separated `repr(key): repr(value)` dict items. -/
def pyReprObj : List (String × Json) → String
  | [] => ""
  | [(k, v)] => strRepr k ++ ": " ++ pyRepr v
  | (k, v) :: kv :: kvs => strRepr k ++ ": " ++ pyRepr v ++ ", " ++ pyReprObj (kv :: kvs)

end

/-- Python `str` of a parsed JSON value: on a `str` it is the string itself
(no quotes); on every other value it agrees with `repr`. This is what
`str(response.json())` and an f-string interpolation `f"...\x7bv\x7d..."`
produce. -/
def pyStr : Json → String
  | .str s => s
  | j => pyRepr j

/-- The exceptions the client code can raise, by the Python exception raised:
`BadRequestException`, `UnauthorizedException` (both from
`authentication.authentication_errors`, carrying a message),
`TimeoutError` (raised bare), `UnkownCloudException` (raised bare by the
non-200 catch-all, and with a message when the connection cannot be
established), `AssertionError` (the precondition `assert`s of
`get_optimized_fts`), a JSON-decoding error (what `response.json()` raises on
a body that is not valid JSON) and `KeyError`/`TypeError` from indexing a
parsed JSON value. -/
inductive ApiError where
  | badRequestException (msg : String)
  | unauthorizedException (msg : String)
  | timeoutError
  | unkownCloudException (msg : Option String)
  | assertionError (msg : String)
  | jsonDecodeError
  | keyError (key : String)

/-- An HTTP response: its status code, and the result of `response.json()`
(`some` parsed body, or `none` when the body is not valid JSON so that
`response.json()` raises). -/
structure Response where
  status_code : ℕ
  body : Option Json

/-- `api.check_status_code`: checks the status code returned by a rest-api
call and raises the appropriate error when the code indicates failure.
Each Python membership test `status_code in [c]` is the equality test
`status_code = c`. The 400 branch raises
`BadRequestException(str(response.json()))`; the 426 branch interpolates
the `msg` entry of `response.json()` into its message; in both,
`response.json()` raises first when the body is not valid JSON, and in the
426 branch indexing the parsed body by the `msg` key raises when that key is
absent. -/
def check_status_code (response : Response) : Except ApiError Unit :=
  if response.status_code = 400 then
    match response.body with
    | none => .error .jsonDecodeError
    | some j => .error (.badRequestException (pyStr j))
  else if response.status_code = 401 then
    .error (.unauthorizedException "JWT validation failed: Missing or invalid credentials")
  else if response.status_code = 402 then
    .error (.unauthorizedException "Insufficient credits (cpu seconds) left.")
  else if response.status_code = 403 then
    .error (.unauthorizedException "Forbidden.")
  else if response.status_code = 426 then
    match response.body with
    | none => .error .jsonDecodeError
    | some j =>
      match j.getKey "msg" with
      | none => .error (.keyError "msg")
      | some m =>
        .error (.unauthorizedException
          ("The cloud api is still in the beta phase; this means it might change. Message from cloud: "
            ++ pyStr m ++ "."))
  else if response.status_code = 504 then
    .error .timeoutError
  else if response.status_code ≠ 200 then
    .error (.unkownCloudException none)
  else
    .ok ()

/-- `CLOUD_API_URL` from `api.py`. -/
def CLOUD_API_URL : String := "https://desktop-test-api.swiftmobility.eu"

/-- A signal group, as the client uses it: an identifier, and its traffic
lights (only their number matters to the client; lights are modelled by
name). -/
structure SignalGroup where
  id : String
  traffic_lights : List String

/-- An intersection, treated as a black box exposing its signal groups and a
`to_json` serialization. -/
structure Intersection where
  signalgroups : List SignalGroup
  json : Json

def Intersection.to_json (i : Intersection) : Json := i.json

/-- Arrival rates: a mapping from signal-group identifier to the list of
arrival rates (one per traffic light), plus a black-box `to_json`
serialization. The Python dict is modelled as an association list with
pairwise-distinct keys. -/
structure ArrivalRates where
  id_to_arrival_rates : List (String × List ℚ)
  json : Json

def ArrivalRates.to_json (a : ArrivalRates) : Json := a.json

/-- A fixed-time schedule, black box exposing `to_json`/`from_json`. -/
structure FixedTimeSchedule where
  json : Json

def FixedTimeSchedule.to_json (f : FixedTimeSchedule) : Json := f.json

def FixedTimeSchedule.from_json (j : Json) : FixedTimeSchedule := ⟨j⟩

/-- A phase diagram, black box exposing `from_json`. -/
structure PhaseDiagram where
  json : Json

def PhaseDiagram.from_json (j : Json) : PhaseDiagram := ⟨j⟩

/-- Modelled from the spec: the `enums` module (`ObjectiveEnum`) is not part
of the sources under verification. Per the spec it is the closed set of
optimization objectives `min_delay`, `min_period`, `max_capacity`, passed
through as a plain value string. -/
inductive ObjectiveEnum where
  | min_delay
  | min_period
  | max_capacity

/-- Modelled from the spec: the value string of the enum member, transmitted as-is
in the request body. -/
def ObjectiveEnum.value : ObjectiveEnum → String
  | .min_delay => "min_delay"
  | .min_period => "min_period"
  | .max_capacity => "max_capacity"

/-- The mutable class-level state of `SwiftMobilityCloudApi`: the cached
`_authentication_token`. The `@authenticate` decorator sets it before an
operation body runs, so the body sees a string. -/
structure ClientState where
  authentication_token : String

/-- What the transport does when `requests.post` is invoked: deliver a
response, or raise `requests.exceptions.ConnectionError` because the
connection could not be established. -/
inductive HttpResult where
  | response (r : Response)
  | connectionError

/-- The request handed to `requests.post`: endpoint URL, headers, and JSON
body. -/
structure PostRequest where
  endpoint : String
  headers : List (String × String)
  json : Json

/-- Observable outcome of one operation call: the returned value or raised
error, together with the request handed to `requests.post` (`none` when
control never reached the post call). -/
structure CallTrace (α : Type) where
  result : Except ApiError α
  posted : Option PostRequest

/-- The `headers` dict of both operations: an `authorization` entry holding
`Bearer ` followed by the token (built with `str.format`). -/
def bearer_headers (token : String) : List (String × String) :=
  [("authorization", "Bearer " ++ token)]

/-- The hardcoded `request_id` of `get_optimized_fts` (marked TEMP in the
source). -/
def request_id : String := "123-456"

/-- The hardcoded `version` of `get_optimized_fts` (marked TEMP in the
source). -/
def version : String := "0.7.0.alpha"

/-- The precondition loop of `get_optimized_fts`: for each signal group of
the intersection, `assert` that the arrival-rates mapping has an entry for
its id and that the length of the entry equals the number of traffic lights
of the group; the first failing `assert` raises `AssertionError` with its
message. -/
def validate_arrival_rates : List SignalGroup → ArrivalRates → Except ApiError Unit
  | [], _ => .ok ()
  | signalgroup :: rest, arrival_rates =>
    match arrival_rates.id_to_arrival_rates.lookup signalgroup.id with
    | none =>
        .error (.assertionError
          ("arrival rate(s) must be specified for signalgroup " ++ signalgroup.id))
    | some rates =>
        if rates.length = signalgroup.traffic_lights.length then
          validate_arrival_rates rest arrival_rates
        else
          .error (.assertionError
            ("arrival rate(s) must be specified for all traffic lights of signalgroup "
              ++ signalgroup.id))

/-- The `json_dict` of `get_optimized_fts`, in the insertion order of the
Python dict literal: the serialized intersection and arrival rates, the
period bounds, the value string of the objective, and the two hardcoded TEMP
fields `version` and `request_id`. -/
def fts_request_body (intersection : Intersection) (arrival_rates : ArrivalRates)
    (min_period_duration max_period_duration : ℚ) (objective : ObjectiveEnum) : Json :=
  .obj [("intersection", intersection.to_json),
        ("arrival_rates", arrival_rates.to_json),
        ("min_period_duration", .num min_period_duration),
        ("max_period_duration", .num max_period_duration),
        ("objective", .str objective.value),
        ("version", .str version),
        ("request_id", .str request_id)]

/-- `SwiftMobilityCloudApi.get_optimized_fts` (the body the decorators wrap):
validate the arrival rates against the signal groups of the intersection (raising
`AssertionError` before any network call on violation), build the request,
post it (a `ConnectionError` from the transport is re-raised as
`UnkownCloudException` with a fixed message), check the status code, then
parse `obj_value`, `fixed_time_schedule` and `phase_diagram` from the
response body. The result is paired with the class state after the call; the
body never assigns `_authentication_token`, it only reads it for the
authorization header. -/
def get_optimized_fts (cls : ClientState) (intersection : Intersection)
    (arrival_rates : ArrivalRates) (min_period_duration max_period_duration : ℚ)
    (objective : ObjectiveEnum) (http : HttpResult) :
    CallTrace (FixedTimeSchedule × PhaseDiagram × Json) × ClientState :=
  match validate_arrival_rates intersection.signalgroups arrival_rates with
  | .error e => ({ result := .error e, posted := none }, cls)
  | .ok _ =>
    let endpoint := CLOUD_API_URL ++ "/fts-optimization"
    let headers := bearer_headers cls.authentication_token
    let json_dict := fts_request_body intersection arrival_rates
      min_period_duration max_period_duration objective
    let req : PostRequest := ⟨endpoint, headers, json_dict⟩
    match http with
    | .connectionError =>
        ({ result := .error (.unkownCloudException
            (some "Connection with swift mobility cloud api could not be established")),
           posted := some req }, cls)
    | .response r =>
      match check_status_code r with
      | .error e => ({ result := .error e, posted := some req }, cls)
      | .ok _ =>
        match r.body with
        | none => ({ result := .error .jsonDecodeError, posted := some req }, cls)
        | some output =>
          match output.getKey "obj_value" with
          | none => ({ result := .error (.keyError "obj_value"), posted := some req }, cls)
          | some objective_value =>
            match output.getKey "fixed_time_schedule" with
            | none =>
                ({ result := .error (.keyError "fixed_time_schedule"),
                   posted := some req }, cls)
            | some fts_json =>
              match output.getKey "phase_diagram" with
              | none =>
                  ({ result := .error (.keyError "phase_diagram"),
                     posted := some req }, cls)
              | some pd_json =>
                  ({ result := .ok (FixedTimeSchedule.from_json fts_json,
                       PhaseDiagram.from_json pd_json, objective_value),
                     posted := some req }, cls)

/-- The default values of the optional parameters of `get_optimized_fts`, as
written in its signature: `min_period_duration: float = 0.0`,
`max_period_duration: float = 180`, `objective = ObjectiveEnum.min_delay`. -/
def default_min_period_duration : ℚ := 0.0

def default_max_period_duration : ℚ := 180

def default_objective : ObjectiveEnum := .min_delay

/-- Calling `get_optimized_fts` with the optional parameters omitted: Python
fills in the defaults of the signature. -/
def get_optimized_fts_with_defaults (cls : ClientState) (intersection : Intersection)
    (arrival_rates : ArrivalRates) (http : HttpResult) :
    CallTrace (FixedTimeSchedule × PhaseDiagram × Json) × ClientState :=
  get_optimized_fts cls intersection arrival_rates
    default_min_period_duration default_max_period_duration default_objective http

/-- `SwiftMobilityCloudApi.get_phase_diagram` (the body the decorators wrap):
build the request from the JSON of the intersection and the
`greenyellow_intervals` and `period` fields of the JSON of the schedule (an
indexing failure there raises before the post call), post it (re-raising
`ConnectionError` as `UnkownCloudException`), check the status code, then
parse `phase_diagram` from the response body. State handling as in
`get_optimized_fts`. -/
def get_phase_diagram (cls : ClientState) (intersection : Intersection)
    (fixed_time_schedule : FixedTimeSchedule) (http : HttpResult) :
    CallTrace PhaseDiagram × ClientState :=
  match fixed_time_schedule.to_json.getKey "greenyellow_intervals" with
  | none => ({ result := .error (.keyError "greenyellow_intervals"), posted := none }, cls)
  | some greenyellow_intervals =>
    match fixed_time_schedule.to_json.getKey "period" with
    | none => ({ result := .error (.keyError "period"), posted := none }, cls)
    | some period =>
      let endpoint := CLOUD_API_URL ++ "/phase-diagram-computation"
      let headers := bearer_headers cls.authentication_token
      let json_dict : Json := .obj
        [("intersection", intersection.to_json),
         ("greenyellow_intervals", greenyellow_intervals),
         ("period", period)]
      let req : PostRequest := ⟨endpoint, headers, json_dict⟩
      match http with
      | .connectionError =>
          ({ result := .error (.unkownCloudException
              (some "Connection with swift mobility cloud api could not be established")),
             posted := some req }, cls)
      | .response r =>
        match check_status_code r with
        | .error e => ({ result := .error e, posted := some req }, cls)
        | .ok _ =>
          match r.body with
          | none => ({ result := .error .jsonDecodeError, posted := some req }, cls)
          | some output =>
            match output.getKey "phase_diagram" with
            | none => ({ result := .error (.keyError "phase_diagram"), posted := some req }, cls)
            | some pd_json =>
                ({ result := .ok (PhaseDiagram.from_json pd_json), posted := some req }, cls)

/-- The condition the validation loop checks for one signal group: the
arrival-rates mapping has an entry for the id of the group whose length
equals the number of traffic lights of the group. -/
def group_rates_ok (arrival_rates : ArrivalRates) (signalgroup : SignalGroup) : Bool :=
  match arrival_rates.id_to_arrival_rates.lookup signalgroup.id with
  | none => false
  | some rates => rates.length == signalgroup.traffic_lights.length

/-- The precondition of `get_optimized_fts`: every signal group of the
intersection passes `group_rates_ok`. -/
def arrival_rates_valid (intersection : Intersection) (arrival_rates : ArrivalRates) : Prop :=
  ∀ sg ∈ intersection.signalgroups, group_rates_ok arrival_rates sg = true

instance (intersection : Intersection) (arrival_rates : ArrivalRates) :
    Decidable (arrival_rates_valid intersection arrival_rates) := by
  unfold arrival_rates_valid
  exact List.decidableBAll _ _

/-- The validation loop succeeds exactly when every signal group passes its
check. -/
theorem validate_arrival_rates_ok_iff (sgs : List SignalGroup) (ar : ArrivalRates) :
    validate_arrival_rates sgs ar = .ok () ↔ ∀ sg ∈ sgs, group_rates_ok ar sg = true := by
  induction sgs with
  | nil => simp [validate_arrival_rates]
  | cons sg rest ih =>
    simp only [validate_arrival_rates, List.mem_cons]
    cases h : ar.id_to_arrival_rates.lookup sg.id with
    | none =>
      simp only [group_rates_ok]
      constructor
      · intro hcontra; cases hcontra
      · intro hall
        have := hall sg (Or.inl rfl)
        rw [h] at this
        cases this
    | some rates =>
      by_cases hlen : rates.length = sg.traffic_lights.length
      · simp only [if_pos hlen, ih]
        constructor
        · intro hall sg' hmem
          rcases hmem with rfl | hmem
          · simp [group_rates_ok, h, hlen]
          · exact hall sg' hmem
        · intro hall sg' hmem
          exact hall sg' (Or.inr hmem)
      · simp only [if_neg hlen]
        constructor
        · intro hcontra; cases hcontra
        · intro hall
          have := hall sg (Or.inl rfl)
          simp [group_rates_ok, h] at this
          exact absurd this hlen

/-- The validation loop either succeeds or raises an `AssertionError`. -/
theorem validate_arrival_rates_shape (sgs : List SignalGroup) (ar : ArrivalRates) :
    validate_arrival_rates sgs ar = .ok ()
      ∨ ∃ msg, validate_arrival_rates sgs ar = .error (.assertionError msg) := by
  induction sgs with
  | nil => exact Or.inl rfl
  | cons sg rest ih =>
    simp only [validate_arrival_rates]
    cases h : ar.id_to_arrival_rates.lookup sg.id with
    | none => exact Or.inr ⟨_, rfl⟩
    | some rates =>
      by_cases hlen : rates.length = sg.traffic_lights.length
      · simpa [if_pos hlen] using ih
      · exact Or.inr
          ⟨"arrival rate(s) must be specified for all traffic lights of signalgroup "
              ++ sg.id, by simp [if_neg hlen]⟩

/-- `check_status_code` raises on every non-200 status code. -/
theorem check_status_code_ne_200 (r : Response) (h : r.status_code ≠ 200) :
    ∃ e, check_status_code r = .error e := by
  unfold check_status_code
  repeat' split
  all_goals exact ⟨_, rfl⟩

/-- `check_status_code` passes a 200 response unchanged. -/
theorem check_status_code_200 (body : Option Json) :
    check_status_code ⟨200, body⟩ = .ok () := by
  rfl

/- Concrete fixtures used to instantiate the theorems: the scenario of the spec with
an intersection with signal groups `A` (one traffic light) and `B` (two
traffic lights) and arrival rates `A ↦ [300]`, `B ↦ [150, 200]`. -/

def example_state : ClientState := ⟨"token123"⟩

def signal_group_A : SignalGroup := ⟨"A", ["A1"]⟩

def signal_group_B : SignalGroup := ⟨"B", ["B1", "B2"]⟩

def example_intersection : Intersection :=
  ⟨[signal_group_A, signal_group_B], Json.obj [("signalgroups", Json.arr [])]⟩

def example_arrival_rates : ArrivalRates :=
  ⟨[("A", [300]), ("B", [150, 200])], Json.obj [("rates", Json.arr [])]⟩

/-- Arrival rates with no entry for signal group `B`. -/
def example_arrival_rates_missing_B : ArrivalRates :=
  ⟨[("A", [300])], Json.obj []⟩

/-- A 200 response body with schedule, phase diagram and objective value
12.5. -/
def example_output : Json :=
  Json.obj [("fixed_time_schedule", Json.obj [("periods", Json.arr [])]),
            ("phase_diagram", Json.obj [("order", Json.arr [])]),
            ("obj_value", Json.num 12.5)]

def example_schedule : FixedTimeSchedule :=
  ⟨Json.obj [("greenyellow_intervals", Json.arr [Json.num 3]), ("period", Json.num 60)]⟩

/-- The eight branches of `check_status_code` as membership tests on the
status code, in source order: the six explicitly listed codes, the non-200
catch-all (every code distinct from the six and from 200), and the 200
success branch. -/
def status_branches : List (ℕ → Bool) :=
  [fun c => c == 400,
   fun c => c == 401,
   fun c => c == 402,
   fun c => c == 403,
   fun c => c == 426,
   fun c => c == 504,
   fun c => !(c == 400) && !(c == 401) && !(c == 402) && !(c == 403)
              && !(c == 426) && !(c == 504) && !(c == 200),
   fun c => c == 200]

/-- C1: the shared status classifier maps the status code to the outcome of
the table of the spec: 200 means success (no exception); 400 raises
`BadRequestException` with the (stringified parsed) response body as message;
401 raises `UnauthorizedException` (missing or invalid credentials); 402
raises `UnauthorizedException` (insufficient usage credits); 403 raises
`UnauthorizedException` (forbidden); 426 raises `UnauthorizedException`
embedding the `msg` field sent by the server; 504 raises `TimeoutError`; and every
other non-200 code raises `UnkownCloudException`. -/
theorem C1_status_code_mapping (code : ℕ) (body : Option Json) (j m : Json)
    (hmsg : j.getKey "msg" = some m) :
    check_status_code ⟨200, body⟩ = .ok ()
    ∧ check_status_code ⟨400, some j⟩ = .error (.badRequestException (pyStr j))
    ∧ check_status_code ⟨401, body⟩
        = .error (.unauthorizedException "JWT validation failed: Missing or invalid credentials")
    ∧ check_status_code ⟨402, body⟩
        = .error (.unauthorizedException "Insufficient credits (cpu seconds) left.")
    ∧ check_status_code ⟨403, body⟩ = .error (.unauthorizedException "Forbidden.")
    ∧ check_status_code ⟨426, some j⟩
        = .error (.unauthorizedException
            ("The cloud api is still in the beta phase; this means it might change. Message from cloud: "
              ++ pyStr m ++ "."))
    ∧ check_status_code ⟨504, body⟩ = .error .timeoutError
    ∧ (code ∉ ([200, 400, 401, 402, 403, 426, 504] : List ℕ) →
        check_status_code ⟨code, body⟩ = .error (.unkownCloudException none)) := by
  refine ⟨rfl, rfl, rfl, rfl, rfl, ?_, rfl, ?_⟩
  · simp [check_status_code, hmsg]
  · intro h
    simp only [List.mem_cons, List.not_mem_nil, or_false, not_or] at h
    obtain ⟨h200, h400, h401, h402, h403, h426, h504⟩ := h
    simp [check_status_code, h200, h400, h401, h402, h403, h426, h504]

/-- Witness for C1: status 599 with a JSON body containing a `msg` field
lands in the catch-all branch. -/
theorem C1_status_code_mapping_witness :
    check_status_code ⟨599, some (Json.obj [("msg", Json.str "hi")])⟩
      = .error (.unkownCloudException none) :=
  (C1_status_code_mapping 599 (some (Json.obj [("msg", Json.str "hi")]))
      (Json.obj [("msg", Json.str "hi")]) (Json.str "hi") rfl).2.2.2.2.2.2.2 (by decide)

/-- C7: the status-code classification is total and stable: every status
code satisfies exactly one of the eight branch conditions of
`check_status_code` (the branch count is one), and the classifier is a pure
function of the status code alone outside the 400 and 426 branches — two
responses with the same status code outside `\x7b400, 426\x7d` classify
identically regardless of their bodies (and the classifier, being a function,
is independent of call history). -/
theorem C7_total_stable :
    (∀ code : ℕ, status_branches.countP (fun p => p code) = 1)
    ∧ (∀ (code : ℕ) (body₁ body₂ : Option Json), code ∉ ([400, 426] : List ℕ) →
        check_status_code ⟨code, body₁⟩ = check_status_code ⟨code, body₂⟩) := by
  constructor
  · intro code
    by_cases h400 : code = 400
    · subst h400; decide
    by_cases h401 : code = 401
    · subst h401; decide
    by_cases h402 : code = 402
    · subst h402; decide
    by_cases h403 : code = 403
    · subst h403; decide
    by_cases h426 : code = 426
    · subst h426; decide
    by_cases h504 : code = 504
    · subst h504; decide
    by_cases h200 : code = 200
    · subst h200; decide
    simp [status_branches, List.countP_cons, h400, h401, h402, h403, h426, h504, h200]
  · intro code body₁ body₂ h
    simp only [List.mem_cons, List.not_mem_nil, or_false, not_or] at h
    obtain ⟨h400, h426⟩ := h
    simp [check_status_code, h400, h426]

/-- Witness for C7: status 500 with and without a parseable body classifies
identically. -/
theorem C7_total_stable_witness :
    check_status_code ⟨500, none⟩ = check_status_code ⟨500, some Json.null⟩ :=
  C7_total_stable.2 500 none (some Json.null) (by decide)

/-- C9: the 400 and 426 branches parse the response body as JSON (and the
426 branch reads its `msg` key): on a 400 or 426 response whose body is not
valid JSON the classifier raises the JSON-decoding error of
`response.json()` instead of the mapped
`BadRequestException`/`UnauthorizedException`, and on a 426 response whose
parsed body has no `msg` key it raises a `KeyError`. -/
theorem C9_body_parsing_errors (j : Json) (hj : j.getKey "msg" = none) :
    check_status_code ⟨400, none⟩ = .error .jsonDecodeError
    ∧ check_status_code ⟨426, none⟩ = .error .jsonDecodeError
    ∧ check_status_code ⟨426, some j⟩ = .error (.keyError "msg") := by
  refine ⟨rfl, rfl, ?_⟩
  simp [check_status_code, hj]

/-- Witness for C9: a 426 response whose JSON body is the empty object
raises `KeyError` for `msg`. -/
theorem C9_body_parsing_errors_witness :
    check_status_code ⟨426, some (Json.obj [])⟩ = .error (.keyError "msg") :=
  (C9_body_parsing_errors (Json.obj []) rfl).2.2

/-- A 200 transport response carrying `example_output`. -/
def example_http_200 : HttpResult := .response ⟨200, some example_output⟩

/-- C2: whenever the identifier of some signal group is absent from the
arrival-rates mapping or the length of some entry differs from that group
traffic-light count, `get_optimized_fts` raises the validation
`AssertionError` before any network call — no request is handed to
`requests.post`. -/
theorem C2_validation_before_network (cls : ClientState) (intersection : Intersection)
    (arrival_rates : ArrivalRates) (min_period_duration max_period_duration : ℚ)
    (objective : ObjectiveEnum) (http : HttpResult)
    (h : ¬ arrival_rates_valid intersection arrival_rates) :
    (∃ msg, (get_optimized_fts cls intersection arrival_rates min_period_duration
        max_period_duration objective http).1.result = .error (.assertionError msg))
    ∧ (get_optimized_fts cls intersection arrival_rates min_period_duration
        max_period_duration objective http).1.posted = none := by
  have hne : validate_arrival_rates intersection.signalgroups arrival_rates ≠ .ok () := by
    intro hok
    exact h ((validate_arrival_rates_ok_iff _ _).mp hok)
  rcases validate_arrival_rates_shape intersection.signalgroups arrival_rates with hok | ⟨msg, herr⟩
  · exact absurd hok hne
  · exact ⟨⟨msg, by simp [get_optimized_fts, herr]⟩, by simp [get_optimized_fts, herr]⟩

/-- Witness for C2: arrival rates missing signal group `B` fail validation,
raise `AssertionError`, and nothing is posted. -/
theorem C2_validation_before_network_witness :
    (¬ arrival_rates_valid example_intersection example_arrival_rates_missing_B)
    ∧ ((∃ msg, (get_optimized_fts example_state example_intersection
          example_arrival_rates_missing_B 0 180 ObjectiveEnum.min_delay
          example_http_200).1.result = .error (.assertionError msg))
        ∧ (get_optimized_fts example_state example_intersection
            example_arrival_rates_missing_B 0 180 ObjectiveEnum.min_delay
            example_http_200).1.posted = none) :=
  ⟨by decide,
   C2_validation_before_network example_state example_intersection
     example_arrival_rates_missing_B 0 180 ObjectiveEnum.min_delay example_http_200
     (by decide)⟩

/-- C3 counterexample: the claim says the posted JSON body consists of the
fields `intersection`, `arrival_rates`, `min_period_duration`,
`max_period_duration`, `objective` and no other fields; but on the scenario
of the spec itself the body handed to `requests.post` additionally contains the
hardcoded fields `version = "0.7.0.alpha"` and `request_id = "123-456"`. -/
theorem C3_extra_fields_counterexample :
    ((get_optimized_fts example_state example_intersection example_arrival_rates 0 180
        ObjectiveEnum.min_delay example_http_200).1.posted.map
          (fun req => req.json.getKey "version"))
      = some (some (Json.str "0.7.0.alpha"))
    ∧ ((get_optimized_fts example_state example_intersection example_arrival_rates 0 180
        ObjectiveEnum.min_delay example_http_200).1.posted.map
          (fun req => req.json.getKey "request_id"))
      = some (some (Json.str "123-456")) :=
  ⟨rfl, rfl⟩

/-- C3 (amended): for every valid input, `get_optimized_fts` hands exactly
one POST request to the transport, aimed at the fts-optimization endpoint,
with a bearer-token authorization header, whose JSON body consists of the
fields `intersection` and `arrival_rates` (in their `to_json` form),
`min_period_duration`, `max_period_duration`, `objective` (its value string)
— plus the two hardcoded fields `version = "0.7.0.alpha"` and
`request_id = "123-456"` — and no other fields. -/
theorem C3_posted_request (cls : ClientState) (intersection : Intersection)
    (arrival_rates : ArrivalRates) (min_period_duration max_period_duration : ℚ)
    (objective : ObjectiveEnum) (http : HttpResult)
    (h : arrival_rates_valid intersection arrival_rates) :
    (get_optimized_fts cls intersection arrival_rates min_period_duration
        max_period_duration objective http).1.posted
      = some ⟨CLOUD_API_URL ++ "/fts-optimization",
              [("authorization", "Bearer " ++ cls.authentication_token)],
              Json.obj [("intersection", intersection.to_json),
                        ("arrival_rates", arrival_rates.to_json),
                        ("min_period_duration", .num min_period_duration),
                        ("max_period_duration", .num max_period_duration),
                        ("objective", .str objective.value),
                        ("version", .str "0.7.0.alpha"),
                        ("request_id", .str "123-456")]⟩ := by
  have hok : validate_arrival_rates intersection.signalgroups arrival_rates = .ok () :=
    (validate_arrival_rates_ok_iff _ _).mpr h
  unfold get_optimized_fts
  rw [hok]
  cases http with
  | connectionError => rfl
  | response r =>
    simp only [fts_request_body, bearer_headers, version, request_id]
    repeat' split
    all_goals rfl

/-- Witness for C3 (amended): the inputs of the spec scenario produce exactly the
seven-field body. -/
theorem C3_posted_request_witness :
    arrival_rates_valid example_intersection example_arrival_rates
    ∧ (get_optimized_fts example_state example_intersection example_arrival_rates 0 180
        ObjectiveEnum.min_delay example_http_200).1.posted
      = some ⟨CLOUD_API_URL ++ "/fts-optimization",
              [("authorization", "Bearer " ++ example_state.authentication_token)],
              Json.obj [("intersection", example_intersection.to_json),
                        ("arrival_rates", example_arrival_rates.to_json),
                        ("min_period_duration", .num 0),
                        ("max_period_duration", .num 180),
                        ("objective", .str ObjectiveEnum.min_delay.value),
                        ("version", .str "0.7.0.alpha"),
                        ("request_id", .str "123-456")]⟩ :=
  ⟨by decide,
   C3_posted_request example_state example_intersection example_arrival_rates 0 180
     ObjectiveEnum.min_delay example_http_200 (by decide)⟩

/-- C4: for both operations, when the transport raises a connection error
the operation raises the service-unreachable error of the taxonomy — the typed
`UnkownCloudException` carrying the message "Connection with swift mobility
cloud api could not be established" — rather than propagating the raw
transport exception. -/
theorem C4_connection_error (cls : ClientState) (intersection : Intersection)
    (arrival_rates : ArrivalRates) (min_period_duration max_period_duration : ℚ)
    (objective : ObjectiveEnum) (fixed_time_schedule : FixedTimeSchedule) (g p : Json)
    (h : arrival_rates_valid intersection arrival_rates)
    (hg : fixed_time_schedule.to_json.getKey "greenyellow_intervals" = some g)
    (hp : fixed_time_schedule.to_json.getKey "period" = some p) :
    (get_optimized_fts cls intersection arrival_rates min_period_duration
        max_period_duration objective .connectionError).1.result
      = .error (.unkownCloudException
          (some "Connection with swift mobility cloud api could not be established"))
    ∧ (get_phase_diagram cls intersection fixed_time_schedule .connectionError).1.result
      = .error (.unkownCloudException
          (some "Connection with swift mobility cloud api could not be established")) := by
  have hok : validate_arrival_rates intersection.signalgroups arrival_rates = .ok () :=
    (validate_arrival_rates_ok_iff _ _).mpr h
  constructor
  · simp [get_optimized_fts, hok]
  · simp [get_phase_diagram, hg, hp]

/-- Witness for C4: the scenario inputs under a failed connection. -/
theorem C4_connection_error_witness :
    arrival_rates_valid example_intersection example_arrival_rates
    ∧ ((get_optimized_fts example_state example_intersection example_arrival_rates 0 180
          ObjectiveEnum.min_delay .connectionError).1.result
        = .error (.unkownCloudException
            (some "Connection with swift mobility cloud api could not be established"))
        ∧ (get_phase_diagram example_state example_intersection example_schedule
            .connectionError).1.result
          = .error (.unkownCloudException
              (some "Connection with swift mobility cloud api could not be established"))) :=
  ⟨by decide,
   C4_connection_error example_state example_intersection example_arrival_rates 0 180
     ObjectiveEnum.min_delay example_schedule (Json.arr [Json.num 3]) (Json.num 60)
     (by decide) rfl rfl⟩

/-- C5: on a 200 response whose body contains `fixed_time_schedule`,
`phase_diagram` and `obj_value`, `get_optimized_fts` returns the triple of
the schedule decoded from `fixed_time_schedule`, the phase diagram decoded
from `phase_diagram`, and the `obj_value` value unchanged; and on any
non-200 status the call raises, so no (partial) result is ever returned. -/
theorem C5_success_decoding (cls : ClientState) (intersection : Intersection)
    (arrival_rates : ArrivalRates) (min_period_duration max_period_duration : ℚ)
    (objective : ObjectiveEnum) (out f p q : Json)
    (hvalid : arrival_rates_valid intersection arrival_rates)
    (hf : out.getKey "fixed_time_schedule" = some f)
    (hp : out.getKey "phase_diagram" = some p)
    (hq : out.getKey "obj_value" = some q) :
    (get_optimized_fts cls intersection arrival_rates min_period_duration
        max_period_duration objective (.response ⟨200, some out⟩)).1.result
      = .ok (FixedTimeSchedule.from_json f, PhaseDiagram.from_json p, q)
    ∧ ∀ (code : ℕ) (body : Option Json), code ≠ 200 →
        ∀ x, (get_optimized_fts cls intersection arrival_rates min_period_duration
            max_period_duration objective (.response ⟨code, body⟩)).1.result ≠ .ok x := by
  have hok : validate_arrival_rates intersection.signalgroups arrival_rates = .ok () :=
    (validate_arrival_rates_ok_iff _ _).mpr hvalid
  constructor
  · simp [get_optimized_fts, hok, check_status_code_200, hq, hf, hp]
  · intro code body hne x
    obtain ⟨e, he⟩ := check_status_code_ne_200 ⟨code, body⟩ hne
    simp [get_optimized_fts, hok, he]

/-- Witness for C5: a 200 response with `obj_value` 12.5 yields objective
value 12.5, and the same call against a 402 response returns no result. -/
theorem C5_success_decoding_witness :
    arrival_rates_valid example_intersection example_arrival_rates
    ∧ (get_optimized_fts example_state example_intersection example_arrival_rates 0 180
        ObjectiveEnum.min_delay example_http_200).1.result
      = .ok (FixedTimeSchedule.from_json (Json.obj [("periods", Json.arr [])]),
             PhaseDiagram.from_json (Json.obj [("order", Json.arr [])]), Json.num 12.5)
    ∧ (get_optimized_fts example_state example_intersection example_arrival_rates 0 180
        ObjectiveEnum.min_delay (.response ⟨402, some example_output⟩)).1.result
      ≠ .ok (FixedTimeSchedule.from_json Json.null, PhaseDiagram.from_json Json.null,
             Json.null) :=
  ⟨by decide,
   (C5_success_decoding example_state example_intersection example_arrival_rates 0 180
      ObjectiveEnum.min_delay example_output (Json.obj [("periods", Json.arr [])])
      (Json.obj [("order", Json.arr [])]) (Json.num 12.5) (by decide) rfl rfl rfl).1,
   (C5_success_decoding example_state example_intersection example_arrival_rates 0 180
      ObjectiveEnum.min_delay example_output (Json.obj [("periods", Json.arr [])])
      (Json.obj [("order", Json.arr [])]) (Json.num 12.5) (by decide) rfl rfl rfl).2
     402 (some example_output) (by decide) _⟩

/-- C6: `get_phase_diagram` hands one POST request to the transport, aimed
at the phase-diagram endpoint, with a bearer-token header and the JSON body
`intersection` / `greenyellow_intervals` / `period` (the latter two taken
from the JSON form of the schedule); on a 200 response it returns the
`PhaseDiagram` decoded from the response field `phase_diagram`. -/
theorem C6_phase_diagram_request (cls : ClientState) (intersection : Intersection)
    (fixed_time_schedule : FixedTimeSchedule) (g p out pd : Json)
    (hg : fixed_time_schedule.to_json.getKey "greenyellow_intervals" = some g)
    (hp : fixed_time_schedule.to_json.getKey "period" = some p)
    (hpd : out.getKey "phase_diagram" = some pd) :
    (get_phase_diagram cls intersection fixed_time_schedule
        (.response ⟨200, some out⟩)).1
      = { result := .ok (PhaseDiagram.from_json pd),
          posted := some ⟨CLOUD_API_URL ++ "/phase-diagram-computation",
                          [("authorization", "Bearer " ++ cls.authentication_token)],
                          Json.obj [("intersection", intersection.to_json),
                                    ("greenyellow_intervals", g),
                                    ("period", p)]⟩ } := by
  simp [get_phase_diagram, hg, hp, hpd, check_status_code_200, bearer_headers]

/-- Witness for C6: the intervals and period of the example schedule are
posted and the phase diagram of the response is returned. -/
theorem C6_phase_diagram_request_witness :
    (get_phase_diagram example_state example_intersection example_schedule
        example_http_200).1
      = { result := .ok (PhaseDiagram.from_json (Json.obj [("order", Json.arr [])])),
          posted := some ⟨CLOUD_API_URL ++ "/phase-diagram-computation",
                          [("authorization", "Bearer " ++ example_state.authentication_token)],
                          Json.obj [("intersection", example_intersection.to_json),
                                    ("greenyellow_intervals", Json.arr [Json.num 3]),
                                    ("period", Json.num 60)]⟩ } :=
  C6_phase_diagram_request example_state example_intersection example_schedule
    (Json.arr [Json.num 3]) (Json.num 60) example_output
    (Json.obj [("order", Json.arr [])]) rfl rfl rfl

/-- C8: when the caller omits them, `get_optimized_fts` uses
`min_period_duration = 0.0`, `max_period_duration = 180.0` seconds and
`objective = ObjectiveEnum.min_delay` as defaults. -/
theorem C8_defaults (cls : ClientState) (intersection : Intersection)
    (arrival_rates : ArrivalRates) (http : HttpResult) :
    get_optimized_fts_with_defaults cls intersection arrival_rates http
      = get_optimized_fts cls intersection arrival_rates (0.0 : ℚ) (180.0 : ℚ)
          ObjectiveEnum.min_delay http
    ∧ default_min_period_duration = (0.0 : ℚ)
    ∧ default_max_period_duration = (180.0 : ℚ)
    ∧ default_objective = ObjectiveEnum.min_delay := by
  have h1 : default_min_period_duration = (0.0 : ℚ) := by norm_num [default_min_period_duration]
  have h2 : default_max_period_duration = (180.0 : ℚ) := by norm_num [default_max_period_duration]
  refine ⟨?_, h1, h2, rfl⟩
  unfold get_optimized_fts_with_defaults
  rw [h1, h2]
  rfl

/-- C10: neither operation body writes the cached authentication token — the
class state after either call equals the state before it — and the token is
read only to build the authorization header of the posted request. -/
theorem C10_token_frame (cls : ClientState) (intersection : Intersection)
    (arrival_rates : ArrivalRates) (min_period_duration max_period_duration : ℚ)
    (objective : ObjectiveEnum) (fixed_time_schedule : FixedTimeSchedule)
    (http₁ http₂ : HttpResult) :
    ((get_optimized_fts cls intersection arrival_rates min_period_duration
        max_period_duration objective http₁).2 = cls)
    ∧ ((get_phase_diagram cls intersection fixed_time_schedule http₂).2 = cls)
    ∧ (∀ req, (get_optimized_fts cls intersection arrival_rates min_period_duration
          max_period_duration objective http₁).1.posted = some req →
        req.headers = [("authorization", "Bearer " ++ cls.authentication_token)])
    ∧ (∀ req, (get_phase_diagram cls intersection fixed_time_schedule http₂).1.posted
          = some req →
        req.headers = [("authorization", "Bearer " ++ cls.authentication_token)]) := by
  refine ⟨?_, ?_, ?_, ?_⟩
  · unfold get_optimized_fts
    repeat' split
    all_goals rfl
  · unfold get_phase_diagram
    repeat' split
    all_goals rfl
  · intro req hreq
    unfold get_optimized_fts at hreq
    repeat' split at hreq
    all_goals simp_all [bearer_headers]
    all_goals subst hreq
    all_goals rfl
  · intro req hreq
    unfold get_phase_diagram at hreq
    repeat' split at hreq
    all_goals simp_all [bearer_headers]
    all_goals subst hreq
    all_goals rfl

/-- The request `get_optimized_fts` hands to the transport on the concrete
scenario inputs. -/
def example_fts_request : PostRequest :=
  ⟨CLOUD_API_URL ++ "/fts-optimization",
   bearer_headers example_state.authentication_token,
   fts_request_body example_intersection example_arrival_rates 0 180
     ObjectiveEnum.min_delay⟩

/-- Witness for C10: the concrete scenario call leaves the token unchanged
and its posted request carries the bearer header built from it. -/
theorem C10_token_frame_witness :
    ((get_optimized_fts example_state example_intersection example_arrival_rates 0 180
        ObjectiveEnum.min_delay example_http_200).2 = example_state)
    ∧ example_fts_request.headers
      = [("authorization", "Bearer " ++ example_state.authentication_token)] :=
  ⟨(C10_token_frame example_state example_intersection example_arrival_rates 0 180
      ObjectiveEnum.min_delay example_schedule example_http_200 example_http_200).1,
   (C10_token_frame example_state example_intersection example_arrival_rates 0 180
      ObjectiveEnum.min_delay example_schedule example_http_200 example_http_200).2.2.1
     example_fts_request rfl⟩

end SwiftCloud
